import Mathlib

/-!
Shallow embedding of the AI-voice-detection pipeline of this repository
(`src/model.py` and `src/main.py`).

Conventions of the embedding:
* Machine floats become exact rationals `ℚ`; `np.mean` is the exact
  arithmetic mean, `np.std` is the square root of the exact population
  variance.  The square root has no exact rational representative, so it is
  passed in as an explicit parameter `sqrtFn : ℚ → ℚ`; no claim below
  depends on its numeric value, only on where the reduction is placed in
  the feature vector.
* The external audio stack (librosa / audioread) is an oracle: an audio
  byte buffer is modelled by its observable behaviour, namely its byte
  length and the outcome of decoding it to frame-wise feature sequences
  (`Except String SignalFeatures`); the repository code never inspects the
  bytes in any other way.
* The pickled model and scaler files are opaque blobs identified by `Nat`
  identifiers; unpickling is an oracle `Nat → RandomForest` resp.
  `Nat → StandardScaler`.  The synthetic bootstrap fit is deterministic
  (fixed seed 42), so it is one fixed blob pair.
* Side effects on the file system (existence of the two pickle files) are
  explicit state passing on `Persisted`; the observable actions of one
  request are recorded in a `List Event` trace.
* `HTTPException(status, detail)` becomes the `HTTPError` structure;
  Python exceptions with a message become `Except String`.
-/

deriving instance DecidableEq for Except

/-- Python `str.lower()`, modelled characterwise. -/
def strLower (s : String) : String := ⟨s.data.map Char.toLower⟩

/-- Exact arithmetic mean of a list of rationals, `np.mean`
(on the empty list Lean division by zero yields 0). -/
def npMean (xs : List ℚ) : ℚ := xs.sum / xs.length

/-- Exact population variance, the quantity under the square root in
`np.std`. -/
def npVariance (xs : List ℚ) : ℚ :=
  npMean (xs.map (fun x => (x - npMean xs) ^ 2))

/-- Embedding of `np.std`: square root of the population variance; the square root is
the supplied `sqrtFn` oracle since the exact value is irrational in
general and no claim depends on it. -/
def npStd (sqrtFn : ℚ → ℚ) (xs : List ℚ) : ℚ := sqrtFn (npVariance xs)

/-- Embedding of `np.mean` of a whole matrix (all entries, all rows and columns), as in
`np.mean(chroma)` in `extract_features`. -/
def npMeanAll (m : List (List ℚ)) : ℚ := npMean m.flatten

/-- Frame-wise feature sequences the librosa calls in `extract_features`
produce from a successfully decoded waveform.  `mfcc` is the matrix
returned by `librosa.feature.mfcc(..., n_mfcc=20)`: one row per
coefficient, hence exactly 20 rows (library guarantee for the argument the
repository passes). -/
structure SignalFeatures where
  mfcc : List (List ℚ)
  specCentroid : List ℚ
  specRolloff : List ℚ
  specBandwidth : List ℚ
  zcr : List ℚ
  chroma : List (List ℚ)
  mfcc_rows : mfcc.length = 20

/-- Embedding of `extract_features(path)` of `src/model.py`.  The argument is the
outcome of the decode-and-DSP part (`librosa.load` and the feature calls),
which is external library code: either it succeeds with the frame-wise
sequences or it fails with a cause.  On success, the function reduces and
concatenates exactly as the `np.hstack` call does; on failure it raises
`Exception("Feature extraction failed: " + cause)` and never returns a
partial vector. -/
def extract_features (sqrtFn : ℚ → ℚ) (file : Except String SignalFeatures) :
    Except String (List ℚ) :=
  match file with
  | .error cause => .error ("Feature extraction failed: " ++ cause)
  | .ok f =>
      let mfcc_mean := f.mfcc.map npMean
      let mfcc_std := f.mfcc.map (npStd sqrtFn)
      .ok (mfcc_mean ++ mfcc_std ++
        [npMean f.specCentroid,
         npStd sqrtFn f.specCentroid,
         npMean f.specRolloff,
         npStd sqrtFn f.specRolloff,
         npMean f.specBandwidth,
         npMean f.zcr,
         npStd sqrtFn f.zcr,
         npMeanAll f.chroma])

/-- Per-class probability distribution a single decision tree of the
ensemble assigns to an input: two nonnegative class weights summing to 1
(sklearn leaf class distributions). -/
structure TreeDist where
  p0 : ℚ
  p1 : ℚ
  nonneg0 : 0 ≤ p0
  nonneg1 : 0 ≤ p1
  sum_one : p0 + p1 = 1

/-- The fitted `RandomForestClassifier`: a nonempty ensemble of trees,
each mapping an input vector to its leaf class distribution
(`n_estimators = 100` in the repository, so the ensemble is nonempty). -/
structure RandomForest where
  trees : List (List ℚ → TreeDist)
  trees_ne : trees ≠ []

/-- Embedding of `model.predict_proba(x)[0]` for the two classes `[0, 1]`: the average
over the trees of the per-tree class distributions. -/
def rfPredictProba (m : RandomForest) (x : List ℚ) : ℚ × ℚ :=
  ((m.trees.map (fun t => (t x).p0)).sum / m.trees.length,
   (m.trees.map (fun t => (t x).p1)).sum / m.trees.length)

/-- Embedding of `model.predict(x)[0]`: the class of maximal averaged probability,
with ties resolved to the first class (np.argmax takes the first
maximum). -/
def rfPredict (m : RandomForest) (x : List ℚ) : ℕ :=
  if (rfPredictProba m x).1 < (rfPredictProba m x).2 then 1 else 0

/-- The fitted `StandardScaler`: per-index mean and scale. -/
structure StandardScaler where
  mean : List ℚ
  scale : List ℚ

/-- Embedding of `scaler.transform`: elementwise `(x - mean) / scale`. -/
def transform (sc : StandardScaler) (x : List ℚ) : List ℚ :=
  (x.zip (sc.mean.zip sc.scale)).map (fun p => (p.1 - p.2.1) / p.2.2)

/-- Lines 229-247 of `src/model.py` (the classification tail of
`predict_voice`): scale the features, predict, take the maximal class
probability as confidence, and map class 1 to `"AI_GENERATED"` and class 0
to `"HUMAN"`. -/
def classify_core (model : RandomForest) (scaler : StandardScaler)
    (feats : List ℚ) : String × ℚ :=
  let features_scaled := transform scaler feats
  let prediction := rfPredict model features_scaled
  let probabilities := rfPredictProba model features_scaled
  let confidence := max probabilities.1 probabilities.2
  let label := if prediction = 1 then "AI_GENERATED" else "HUMAN"
  (label, confidence)

/-- Existence state of the two pickle files `MODEL_PATH` and
`SCALER_PATH`; the blobs are opaque `Nat` identifiers. -/
structure Persisted where
  modelFile : Option ℕ
  scalerFile : Option ℕ
deriving DecidableEq, Repr

/-- Blob identifier of the classifier artifact written by the synthetic
bootstrap fit (deterministic: fixed seed 42). -/
def bootstrapModelBlob : ℕ := 0

/-- Blob identifier of the scaler artifact written by the synthetic
bootstrap fit. -/
def bootstrapScalerBlob : ℕ := 1

/-- Observable actions of one request against the model subsystem. -/
inductive Event where
  | bootstrapTrain
  | loadModelFiles
  | extractFeaturesStep
  | classifyStep
deriving DecidableEq, Repr

/-- Effect of `train_model` as it is invoked by `initialize_model`: fits on the
synthetic data (a fixed deterministic artifact pair, seed 42) and writes
both pickle files. -/
def train_model_effect (_s : Persisted) : Persisted × List Event :=
  (⟨some bootstrapModelBlob, some bootstrapScalerBlob⟩, [Event.bootstrapTrain])

/-- Embedding of `initialize_model()` of `src/model.py`: when either pickle file is
missing, create and persist the initial model from synthetic data,
otherwise do nothing. -/
def initialize_model (s : Persisted) : Persisted × List Event :=
  if s.modelFile = none ∨ s.scalerFile = none then train_model_effect s
  else (s, [])

/-- Embedding of `load_model()` of `src/model.py`: read both pickle files, failing when
either is absent. -/
def load_model (s : Persisted) : Except String (ℕ × ℕ) :=
  match s.modelFile, s.scalerFile with
  | some m, some sc => .ok (m, sc)
  | _, _ =>
      .error "Model files not found. Please train the model first using train_model() or run initialize_model() to create an initial model."

/-- Embedding of `predict_voice(path)` of `src/model.py`: unconditionally ensure the
model exists, load it, extract features from the file, classify.  Any
failure is re-raised with the prefix `"Prediction failed: "`.
`unpickleModel` / `unpickleScaler` are the unpickling oracles and
`file` is the decode outcome of the staged audio file. -/
def predict_voice (sqrtFn : ℚ → ℚ) (unpickleModel : ℕ → RandomForest)
    (unpickleScaler : ℕ → StandardScaler) (s : Persisted)
    (file : Except String SignalFeatures) :
    Persisted × List Event × Except String (String × ℚ) :=
  let init := initialize_model s
  match load_model init.1 with
  | .error msg => (init.1, init.2 ++ [Event.loadModelFiles],
      .error ("Prediction failed: " ++ msg))
  | .ok blobs =>
      match extract_features sqrtFn file with
      | .error msg => (init.1,
          init.2 ++ [Event.loadModelFiles, Event.extractFeaturesStep],
          .error ("Prediction failed: " ++ msg))
      | .ok feats =>
          let r := classify_core (unpickleModel blobs.1) (unpickleScaler blobs.2) feats
          (init.1,
           init.2 ++ [Event.loadModelFiles, Event.extractFeaturesStep, Event.classifyStep],
           .ok r)

/-- Default `API_KEY` of `src/main.py`. -/
def API_KEY : String := "teamAI_123"

/-- The `SUPPORTED_LANGUAGES` list of `src/main.py`. -/
def SUPPORTED_LANGUAGES : List String :=
  ["tamil", "english", "hindi", "malayalam", "telugu"]

/-- Embedding of `validate_api_key` of `src/main.py`: a missing or empty key is
invalid, otherwise compare with `API_KEY`. -/
def validate_api_key (apiKey : Option String) : Bool :=
  match apiKey with
  | none => false
  | some s => if s = "" then false else s = API_KEY

/-- Embedding of `validate_language` of `src/main.py`. -/
def validate_language (language : String) : Bool :=
  SUPPORTED_LANGUAGES.contains (strLower language)

/-- Embedding of `HTTPException(status_code, detail)`. -/
structure HTTPError where
  status : ℕ
  detail : String
deriving DecidableEq, Repr

/-- The size validation of `detect` (`src/main.py` lines 670-680), on the
length of the base64-decoded byte buffer: reject strictly above 25 MiB
with 413, then strictly below 1024 bytes with 400. -/
def validate_size (n : ℕ) : Except HTTPError Unit :=
  if n > 25 * 1024 * 1024 then .error ⟨413, "Audio file too large (max 25MB)"⟩
  else if n < 1024 then .error ⟨400, "Audio file too small"⟩
  else .ok ()

/-- An audio byte buffer, modelled by the only two observations the code
makes of it: its byte length, and what the audio decoder makes of its
content once staged to a file. -/
structure AudioBytes where
  len : ℕ
  audio : Except String SignalFeatures

/-- The request body of the `/detect` endpoint (the optional `user_id`
field is never read by the endpoint and is omitted). -/
structure AudioRequest where
  audio_base64 : String
  audio_format : String
  language : String

/-- The success body of the `/detect` endpoint.  The `timestamp` field
(wall-clock `datetime.utcnow()`) and the exact percent formatting inside
`message` are not modelled; `message` keeps the classification-dependent
part. -/
structure DetectionResponse where
  status : String
  classification : String
  confidence_score : ℚ
  language : String
  message : String
deriving DecidableEq, Repr

/-- The `/detect` endpoint of `src/main.py`: api-key check, language
check, empty-body check, base64 decode (`b64decode` oracle:
`none` models a `binascii` failure), size validation, then stage the bytes
to a temp file named by `audio_format` and run `predict_voice`, whose
failure becomes a 422.  The declared format is used only in the staged
file name; decoding is content-based. -/
def detect (sqrtFn : ℚ → ℚ) (unpickleModel : ℕ → RandomForest)
    (unpickleScaler : ℕ → StandardScaler)
    (b64decode : String → Option AudioBytes)
    (x_api_key : Option String) (store : Persisted) (data : AudioRequest) :
    Persisted × List Event × Except HTTPError DetectionResponse :=
  if validate_api_key x_api_key = false then
    (store, [], .error ⟨401, "Invalid or missing API key"⟩)
  else if validate_language data.language = false then
    (store, [], .error ⟨400, "Unsupported language. Supported: tamil, english, hindi, malayalam, telugu"⟩)
  else if data.audio_base64 = "" then
    (store, [], .error ⟨400, "audio_base64 cannot be empty"⟩)
  else
    match b64decode data.audio_base64 with
    | none => (store, [], .error ⟨400, "Invalid base64 encoding"⟩)
    | some audio_bytes =>
        match validate_size audio_bytes.len with
        | .error e => (store, [], .error e)
        | .ok _ =>
            match predict_voice sqrtFn unpickleModel unpickleScaler store audio_bytes.audio with
            | (s1, ev, .error msg) =>
                (s1, ev, .error ⟨422, "Audio processing failed: " ++ msg⟩)
            | (s1, ev, .ok r) =>
                (s1, ev, .ok
                  { status := "success"
                    classification := r.1
                    confidence_score := r.2
                    language := strLower data.language
                    message := "Audio classified as " ++ r.1 })

/-- The `supported_formats` constant reported by the `/stats` endpoint of
`src/main.py` (line 739); the `/detect` endpoint itself never consults
it. -/
def SUPPORTED_FORMATS : List String := ["mp3", "wav", "ogg", "flac"]

/-- A fresh process state: neither pickle file exists yet. -/
def freshStore : Persisted := ⟨none, none⟩

/-- Concrete decoded frame data used to instantiate theorems: 20 MFCC
rows and one frame for every other feature. -/
def demoFeatures : SignalFeatures where
  mfcc := List.replicate 20 [0]
  specCentroid := [0]
  specRolloff := [0]
  specBandwidth := [0]
  zcr := [0]
  chroma := [[0]]
  mfcc_rows := by simp

/-- A concrete decision tree voting for class 0 with weight 1. -/
def demoTree : List ℚ → TreeDist := fun _ =>
  { p0 := 1, p1 := 0, nonneg0 := by norm_num, nonneg1 := le_refl 0,
    sum_one := by norm_num }

/-- A concrete single-tree forest used as unpickling result in witnesses. -/
def demoForest : RandomForest where
  trees := [demoTree]
  trees_ne := by simp

/-- A concrete identity-like scaler over 48 coordinates. -/
def demoScaler : StandardScaler where
  mean := List.replicate 48 0
  scale := List.replicate 48 1

/-- A concrete base64 oracle: the body `"audio"` decodes to 2000 bytes of
decodable audio, the body `"short"` to 500 undecodable bytes, the body
`"corrupt"` to 4096 bytes that fail audio decoding, anything else is
invalid base64. -/
def demoB64 (s : String) : Option AudioBytes :=
  if s = "audio" then some ⟨2000, .ok demoFeatures⟩
  else if s = "short" then some ⟨500, .error "decode error"⟩
  else if s = "corrupt" then some ⟨4096, .error "truncated header"⟩
  else none

/-- A base64 oracle producing decodable buffers of exactly the two size
boundary lengths: 1024 bytes and 25 MiB. -/
def boundaryB64 (s : String) : Option AudioBytes :=
  if s = "lo" then some ⟨1024, .ok demoFeatures⟩
  else if s = "hi" then some ⟨26214400, .ok demoFeatures⟩
  else none

/-- The length of the successful extraction result, before any claim:
both halves of the MFCC block have as many entries as MFCC rows. -/
theorem extract_features_ok_length (sqrtFn : ℚ → ℚ)
    (file : Except String SignalFeatures) (v : List ℚ)
    (h : extract_features sqrtFn file = .ok v) : v.length = 48 := by
  cases file with
  | error cause => simp [extract_features] at h
  | ok f =>
      simp only [extract_features, Except.ok.injEq] at h
      subst h
      simp [List.length_append, f.mfcc_rows]

/-- Index arithmetic for the tail block of the feature vector: the entry
at `40 + j` of `A ++ B ++ L` is the entry at `j` of `L` when the two
MFCC blocks have 20 entries each. -/
theorem getElem_append_tail (A B L : List ℚ) (hA : A.length = 20)
    (hB : B.length = 20) (j : ℕ) : (A ++ B ++ L)[40 + j]? = L[j]? := by
  rw [List.getElem?_append_right (by simp [hA, hB])]
  congr 1
  simp [hA, hB]

/-- Claim C1: for every successfully decoded audio input,
`extract_features` returns a vector of exactly 48 values in the fixed
order: indices `[0, 20)` the MFCC per-coefficient means, `[20, 40)` the
MFCC per-coefficient standard deviations, then at 40-47 the
spectral-centroid mean and std, spectral-rolloff mean and std,
spectral-bandwidth mean, zero-crossing-rate mean and std, and the single
global chroma mean. -/
theorem extract_features_layout (sqrtFn : ℚ → ℚ) (f : SignalFeatures) :
    ∃ v : List ℚ, extract_features sqrtFn (.ok f) = .ok v ∧ v.length = 48 ∧
      (∀ i, i < 20 → v[i]? = (f.mfcc[i]?).map npMean) ∧
      (∀ i, i < 20 → v[20 + i]? = (f.mfcc[i]?).map (npStd sqrtFn)) ∧
      v[40]? = some (npMean f.specCentroid) ∧
      v[41]? = some (npStd sqrtFn f.specCentroid) ∧
      v[42]? = some (npMean f.specRolloff) ∧
      v[43]? = some (npStd sqrtFn f.specRolloff) ∧
      v[44]? = some (npMean f.specBandwidth) ∧
      v[45]? = some (npMean f.zcr) ∧
      v[46]? = some (npStd sqrtFn f.zcr) ∧
      v[47]? = some (npMeanAll f.chroma) := by
  have hA : (f.mfcc.map npMean).length = 20 := by
    rw [List.length_map, f.mfcc_rows]
  have hB : (f.mfcc.map (npStd sqrtFn)).length = 20 := by
    rw [List.length_map, f.mfcc_rows]
  refine ⟨_, rfl, ?_, ?_, ?_, ?_, ?_, ?_, ?_, ?_, ?_, ?_, ?_⟩
  · simp [List.length_append, hA, hB]
  · intro i hi
    rw [List.getElem?_append_left (by simp [hA, hB]; omega),
      List.getElem?_append_left (by rw [hA]; omega), List.getElem?_map]
  · intro i hi
    rw [List.getElem?_append_left (by simp [hA, hB]; omega),
      List.getElem?_append_right (by rw [hA]; omega)]
    have hidx : 20 + i - (f.mfcc.map npMean).length = i := by rw [hA]; omega
    rw [hidx, List.getElem?_map]
  · exact getElem_append_tail _ _ _ hA hB 0
  · exact getElem_append_tail _ _ _ hA hB 1
  · exact getElem_append_tail _ _ _ hA hB 2
  · exact getElem_append_tail _ _ _ hA hB 3
  · exact getElem_append_tail _ _ _ hA hB 4
  · exact getElem_append_tail _ _ _ hA hB 5
  · exact getElem_append_tail _ _ _ hA hB 6
  · exact getElem_append_tail _ _ _ hA hB 7

/-- Witness for C1: the layout theorem instantiated at a concrete decoded
input and the identity square-root oracle. -/
theorem extract_features_layout_witness :
    ∃ v : List ℚ, extract_features id (.ok demoFeatures) = .ok v ∧ v.length = 48 ∧
      (∀ i, i < 20 → v[i]? = (demoFeatures.mfcc[i]?).map npMean) ∧
      (∀ i, i < 20 → v[20 + i]? = (demoFeatures.mfcc[i]?).map (npStd id)) ∧
      v[40]? = some (npMean demoFeatures.specCentroid) ∧
      v[41]? = some (npStd id demoFeatures.specCentroid) ∧
      v[42]? = some (npMean demoFeatures.specRolloff) ∧
      v[43]? = some (npStd id demoFeatures.specRolloff) ∧
      v[44]? = some (npMean demoFeatures.specBandwidth) ∧
      v[45]? = some (npMean demoFeatures.zcr) ∧
      v[46]? = some (npStd id demoFeatures.zcr) ∧
      v[47]? = some (npMeanAll demoFeatures.chroma) :=
  extract_features_layout id demoFeatures

/-- Per-tree class weights sum to one, hence the two vote sums over the
ensemble add up to the number of trees. -/
theorem sum_tree_weights (ts : List (List ℚ → TreeDist)) (x : List ℚ) :
    (ts.map (fun t => (t x).p0)).sum + (ts.map (fun t => (t x).p1)).sum
      = (ts.length : ℚ) := by
  induction ts with
  | nil => simp
  | cons t ts ih =>
      simp only [List.map_cons, List.sum_cons, List.length_cons]
      push_cast
      linarith [(t x).sum_one, ih]

/-- The vote sums are nonnegative. -/
theorem sum_tree_weights_nonneg (ts : List (List ℚ → TreeDist)) (x : List ℚ)
    (g : (List ℚ → TreeDist) → List ℚ → ℚ)
    (hg : ∀ t, 0 ≤ g t x) : 0 ≤ (ts.map (fun t => g t x)).sum := by
  apply List.sum_nonneg
  intro a ha
  obtain ⟨t, _, rfl⟩ := List.mem_map.mp ha
  exact hg t

/-- The averaged class probabilities are nonnegative and sum to one. -/
theorem rfPredictProba_props (m : RandomForest) (x : List ℚ) :
    0 ≤ (rfPredictProba m x).1 ∧ 0 ≤ (rfPredictProba m x).2 ∧
      (rfPredictProba m x).1 + (rfPredictProba m x).2 = 1 := by
  have hn : (0 : ℚ) < (m.trees.length : ℚ) := by
    have := List.length_pos.mpr m.trees_ne
    exact_mod_cast this
  have h0 : 0 ≤ (m.trees.map (fun t => (t x).p0)).sum :=
    sum_tree_weights_nonneg m.trees x (fun t y => (t y).p0) (fun t => (t x).nonneg0)
  have h1 : 0 ≤ (m.trees.map (fun t => (t x).p1)).sum :=
    sum_tree_weights_nonneg m.trees x (fun t y => (t y).p1) (fun t => (t x).nonneg1)
  refine ⟨div_nonneg h0 hn.le, div_nonneg h1 hn.le, ?_⟩
  rw [rfPredictProba, div_add_div_same, sum_tree_weights, div_self hn.ne.symm]

/-- Claim C3: the two class probabilities of a completed prediction sum
to one, the confidence reported by the prediction path is the maximum of
the two, and it therefore lies in the interval from one half to one. -/
theorem classify_core_confidence (model : RandomForest)
    (scaler : StandardScaler) (feats : List ℚ) :
    (rfPredictProba model (transform scaler feats)).1 +
      (rfPredictProba model (transform scaler feats)).2 = 1 ∧
    (classify_core model scaler feats).2 =
      max (rfPredictProba model (transform scaler feats)).1
        (rfPredictProba model (transform scaler feats)).2 ∧
    1 / 2 ≤ (classify_core model scaler feats).2 ∧
    (classify_core model scaler feats).2 ≤ 1 := by
  obtain ⟨h0, h1, hsum⟩ := rfPredictProba_props model (transform scaler feats)
  refine ⟨hsum, rfl, ?_, ?_⟩
  · show 1 / 2 ≤ max _ _
    rcases le_total (rfPredictProba model (transform scaler feats)).1
        (rfPredictProba model (transform scaler feats)).2 with h | h
    · rw [max_eq_right h]; linarith
    · rw [max_eq_left h]; linarith
  · show max _ _ ≤ 1
    exact max_le (by linarith) (by linarith)

/-- Claim C8: the label of a completed prediction is the argmax class:
class 1 maps to `"AI_GENERATED"`, class 0 to `"HUMAN"`, the predicted
class is always one of the two, and the probability of the predicted
class is the maximal one. -/
theorem classify_core_label_argmax (model : RandomForest)
    (scaler : StandardScaler) (feats : List ℚ) :
    (classify_core model scaler feats).1 =
      (if rfPredict model (transform scaler feats) = 1 then "AI_GENERATED"
       else "HUMAN") ∧
    (rfPredict model (transform scaler feats) = 0 ∨
     rfPredict model (transform scaler feats) = 1) ∧
    (if rfPredict model (transform scaler feats) = 1 then
        (rfPredictProba model (transform scaler feats)).2
      else (rfPredictProba model (transform scaler feats)).1) =
      max (rfPredictProba model (transform scaler feats)).1
        (rfPredictProba model (transform scaler feats)).2 := by
  refine ⟨rfl, ?_, ?_⟩
  · by_cases h : (rfPredictProba model (transform scaler feats)).1 <
        (rfPredictProba model (transform scaler feats)).2
    · rw [rfPredict, if_pos h]
      exact Or.inr rfl
    · rw [rfPredict, if_neg h]
      exact Or.inl rfl
  · by_cases h : (rfPredictProba model (transform scaler feats)).1 <
        (rfPredictProba model (transform scaler feats)).2
    · rw [rfPredict, if_pos h, if_pos rfl, max_eq_right h.le]
    · rw [rfPredict, if_neg h, if_neg (by omega : (0 : ℕ) ≠ 1),
        max_eq_left (le_of_not_lt h)]

/-- Claim C7: the bootstrap initializer is idempotent: a second call to
`initialize_model` after any first call leaves the persisted state
unchanged and performs no further bootstrap training. -/
theorem initialize_model_idempotent (s : Persisted) :
    initialize_model (initialize_model s).1 = ((initialize_model s).1, []) := by
  by_cases h : s.modelFile = none ∨ s.scalerFile = none
  · simp [initialize_model, train_model_effect, h]
  · simp [initialize_model, if_neg h]

/-- After `initialize_model`, both pickle files exist, so `load_model`
succeeds. -/
theorem load_after_initialize (s : Persisted) :
    ∃ blobs : ℕ × ℕ, load_model (initialize_model s).1 = .ok blobs := by
  by_cases h : s.modelFile = none ∨ s.scalerFile = none
  · exact ⟨(bootstrapModelBlob, bootstrapScalerBlob),
      by simp [initialize_model, train_model_effect, h, load_model]⟩
  · have hif : initialize_model s = (s, []) := by simp [initialize_model, h]
    push_neg at h
    obtain ⟨m, hm⟩ := Option.ne_none_iff_exists'.mp h.1
    obtain ⟨sc, hsc⟩ := Option.ne_none_iff_exists'.mp h.2
    exact ⟨(m, sc), by rw [hif]; simp [load_model, hm, hsc]⟩

/-- The event trace of `initialize_model`: one bootstrap fit exactly when
a pickle file is missing, nothing otherwise. -/
theorem initialize_model_trace (s : Persisted) :
    (initialize_model s).2 =
      if s.modelFile = none ∨ s.scalerFile = none then [Event.bootstrapTrain]
      else [] := by
  by_cases h : s.modelFile = none ∨ s.scalerFile = none <;>
    simp [initialize_model, train_model_effect, h]

/-- Behaviour of `predict_voice` on a file whose decode fails: the extraction error is
wrapped and re-raised, and no classification step happens. -/
theorem predict_voice_extract_error (sqrtFn : ℚ → ℚ)
    (um : ℕ → RandomForest) (us : ℕ → StandardScaler) (s : Persisted)
    (cause : String) :
    predict_voice sqrtFn um us s (.error cause) =
      ((initialize_model s).1,
       (initialize_model s).2 ++ [Event.loadModelFiles, Event.extractFeaturesStep],
       .error ("Prediction failed: " ++ ("Feature extraction failed: " ++ cause))) := by
  obtain ⟨blobs, hload⟩ := load_after_initialize s
  simp [predict_voice, hload, extract_features]

/-- Behaviour of `predict_voice` on a file that decodes: the extracted vector is
classified once. -/
theorem predict_voice_extract_ok (sqrtFn : ℚ → ℚ)
    (um : ℕ → RandomForest) (us : ℕ → StandardScaler) (s : Persisted)
    (f : SignalFeatures) (v : List ℚ) (blobs : ℕ × ℕ)
    (hv : extract_features sqrtFn (.ok f) = .ok v)
    (hload : load_model (initialize_model s).1 = .ok blobs) :
    predict_voice sqrtFn um us s (.ok f) =
      ((initialize_model s).1,
       (initialize_model s).2 ++
         [Event.loadModelFiles, Event.extractFeaturesStep, Event.classifyStep],
       .ok (classify_core (um blobs.1) (us blobs.2) v)) := by
  simp [predict_voice, hload, hv]

/-- Claim C4: a failing decode or feature computation makes
`extract_features` fail with the underlying cause attached; a successful
extraction is never partial (always the full 48 values); and a request
whose audio fails to decode produces no detection result: `detect`
surfaces a 422 error carrying the cause and never reaches the
classification step. -/
theorem extract_failure_no_result (sqrtFn : ℚ → ℚ)
    (um : ℕ → RandomForest) (us : ℕ → StandardScaler)
    (b64 : String → Option AudioBytes) (key : Option String)
    (store : Persisted) (data : AudioRequest) (bytes : AudioBytes)
    (cause : String)
    (hkey : validate_api_key key = true)
    (hlang : validate_language data.language = true)
    (hne : data.audio_base64 ≠ "")
    (hdec : b64 data.audio_base64 = some bytes)
    (hsz : validate_size bytes.len = .ok ())
    (haudio : bytes.audio = .error cause) :
    extract_features sqrtFn (.error cause) =
      .error ("Feature extraction failed: " ++ cause) ∧
    (∀ file v, extract_features sqrtFn file = .ok v → v.length = 48) ∧
    ∃ ev : List Event,
      detect sqrtFn um us b64 key store data =
        ((initialize_model store).1, ev,
         .error ⟨422, "Audio processing failed: " ++
           ("Prediction failed: " ++ ("Feature extraction failed: " ++ cause))⟩) ∧
      Event.classifyStep ∉ ev := by
  refine ⟨rfl, fun file v h => extract_features_ok_length sqrtFn file v h, ?_⟩
  refine ⟨(initialize_model store).2 ++
    [Event.loadModelFiles, Event.extractFeaturesStep], ?_, ?_⟩
  · have hpv := predict_voice_extract_error sqrtFn um us store cause
    simp [detect, hkey, hlang, hne, hdec, hsz, haudio, hpv]
  · rw [initialize_model_trace]
    by_cases h : store.modelFile = none ∨ store.scalerFile = none <;> simp [h]

/-- Witness for C4: a 4096-byte buffer whose audio decoding fails with
cause `"truncated header"` yields a 422 carrying the cause and no
classification step. -/
theorem extract_failure_no_result_witness :
    extract_features id (.error "truncated header") =
      .error ("Feature extraction failed: " ++ "truncated header") ∧
    (∀ file v, extract_features id file = .ok v → v.length = 48) ∧
    ∃ ev : List Event,
      detect id (fun _ => demoForest) (fun _ => demoScaler) demoB64
        (some API_KEY) freshStore ⟨"corrupt", "wav", "english"⟩ =
        ((initialize_model freshStore).1, ev,
         .error ⟨422, "Audio processing failed: " ++
           ("Prediction failed: " ++
             ("Feature extraction failed: " ++ "truncated header"))⟩) ∧
      Event.classifyStep ∉ ev :=
  extract_failure_no_result id (fun _ => demoForest) (fun _ => demoScaler)
    demoB64 (some API_KEY) freshStore ⟨"corrupt", "wav", "english"⟩
    ⟨4096, .error "truncated header"⟩ "truncated header"
    (by decide) (by decide) (by decide) rfl (by decide) rfl

/-- Claim C6 (amended): per request, `predict_voice` bootstraps exactly
once, before any classification attempt, precisely when a persisted
artifact is missing; it then loads the model and attempts extraction and
classification at most once each — there is no failed-classification-then-
retry cycle. -/
theorem predict_voice_bootstrap_discipline (sqrtFn : ℚ → ℚ)
    (um : ℕ → RandomForest) (us : ℕ → StandardScaler) (s : Persisted)
    (file : Except String SignalFeatures) :
    (predict_voice sqrtFn um us s file).2.1 =
      (if s.modelFile = none ∨ s.scalerFile = none then [Event.bootstrapTrain]
        else []) ++
      [Event.loadModelFiles, Event.extractFeaturesStep] ++
      (match extract_features sqrtFn file with
       | .ok _ => [Event.classifyStep]
       | .error _ => []) ∧
    ((predict_voice sqrtFn um us s file).2.1).count Event.bootstrapTrain ≤ 1 ∧
    ((predict_voice sqrtFn um us s file).2.1).count Event.classifyStep ≤ 1 := by
  obtain ⟨blobs, hload⟩ := load_after_initialize s
  have htr : (predict_voice sqrtFn um us s file).2.1 =
      (initialize_model s).2 ++ [Event.loadModelFiles, Event.extractFeaturesStep] ++
      (match extract_features sqrtFn file with
       | .ok _ => [Event.classifyStep]
       | .error _ => []) := by
    cases file with
    | error cause =>
        rw [predict_voice_extract_error sqrtFn um us s cause]
        simp [extract_features]
    | ok f =>
        rw [predict_voice_extract_ok sqrtFn um us s f _ blobs rfl hload]
        simp [extract_features]
  refine ⟨by rw [htr, initialize_model_trace], ?_, ?_⟩ <;>
    rw [htr, initialize_model_trace] <;>
    by_cases h : s.modelFile = none ∨ s.scalerFile = none <;>
    cases hx : extract_features sqrtFn file <;>
    simp [h, hx, List.count_append, List.count_cons]

/-- Witness for the amended C6 at a fresh state and a decodable file. -/
theorem predict_voice_bootstrap_discipline_witness :
    (predict_voice id (fun _ => demoForest) (fun _ => demoScaler) freshStore
      (.ok demoFeatures)).2.1 =
      (if freshStore.modelFile = none ∨ freshStore.scalerFile = none then
        [Event.bootstrapTrain] else []) ++
      [Event.loadModelFiles, Event.extractFeaturesStep] ++
      (match extract_features id (.ok demoFeatures) with
       | .ok _ => [Event.classifyStep]
       | .error _ => []) ∧
    ((predict_voice id (fun _ => demoForest) (fun _ => demoScaler) freshStore
      (.ok demoFeatures)).2.1).count Event.bootstrapTrain ≤ 1 ∧
    ((predict_voice id (fun _ => demoForest) (fun _ => demoScaler) freshStore
      (.ok demoFeatures)).2.1).count Event.classifyStep ≤ 1 :=
  predict_voice_bootstrap_discipline id (fun _ => demoForest)
    (fun _ => demoScaler) freshStore (.ok demoFeatures)

/-- Counterexample to C6 as stated: on a fresh state (no persisted model)
with a decodable file, the very first recorded action is the bootstrap —
no classification attempt precedes it and classification happens exactly
once afterwards, so the bootstrap is not triggered by a failed
classification and nothing is retried. -/
theorem predict_voice_no_retry_counterexample :
    (predict_voice id (fun _ => demoForest) (fun _ => demoScaler) freshStore
      (.ok demoFeatures)).2.1 =
      [Event.bootstrapTrain, Event.loadModelFiles, Event.extractFeaturesStep,
       Event.classifyStep] ∧
    ((predict_voice id (fun _ => demoForest) (fun _ => demoScaler) freshStore
      (.ok demoFeatures)).2.1).count Event.bootstrapTrain = 1 ∧
    ((predict_voice id (fun _ => demoForest) (fun _ => demoScaler) freshStore
      (.ok demoFeatures)).2.1).count Event.classifyStep = 1 ∧
    (((predict_voice id (fun _ => demoForest) (fun _ => demoScaler) freshStore
      (.ok demoFeatures)).2.1).takeWhile
        (fun e => e != Event.bootstrapTrain)).count Event.classifyStep = 0 := by
  decide

/-- Claim C10: the size check fails exactly when the decoded byte length
is strictly below 1024 or strictly above 26214400; both boundary lengths
pass and such requests proceed to feature extraction. -/
theorem validate_size_boundaries :
    (∀ n : ℕ, validate_size n = .ok () ↔ 1024 ≤ n ∧ n ≤ 26214400) ∧
    validate_size 1024 = .ok () ∧ validate_size 26214400 = .ok () ∧
    (detect id (fun _ => demoForest) (fun _ => demoScaler) boundaryB64
      (some API_KEY) freshStore ⟨"lo", "wav", "english"⟩).2.1.contains
        Event.extractFeaturesStep = true ∧
    (detect id (fun _ => demoForest) (fun _ => demoScaler) boundaryB64
      (some API_KEY) freshStore ⟨"hi", "wav", "english"⟩).2.1.contains
        Event.extractFeaturesStep = true := by
  refine ⟨?_, by decide, by decide, by decide, by decide⟩
  intro n
  constructor
  · intro h
    rw [validate_size] at h
    by_cases h1 : n > 25 * 1024 * 1024
    · rw [if_pos h1] at h
      exact absurd h (by simp)
    · rw [if_neg h1] at h
      by_cases h2 : n < 1024
      · rw [if_pos h2] at h
        exact absurd h (by simp)
      · constructor <;> omega
  · rintro ⟨ha, hb⟩
    rw [validate_size, if_neg (by omega), if_neg (by omega)]

/-- Witness for C10: the boundary equivalence applied at the in-range
length 2048. -/
theorem validate_size_boundaries_witness : validate_size 2048 = .ok () :=
  (validate_size_boundaries.1 2048).mpr (by omega)

/-- Claim C2: an otherwise well-formed request whose decoded byte length
is below 1 KiB or above 25 MiB is rejected by the size check with the
corresponding input error, the persisted state is untouched and no
extraction, classification or bootstrap step is attempted (empty event
trace). -/
theorem detect_size_rejects_before_extraction (sqrtFn : ℚ → ℚ)
    (um : ℕ → RandomForest) (us : ℕ → StandardScaler)
    (b64 : String → Option AudioBytes) (key : Option String)
    (store : Persisted) (data : AudioRequest) (bytes : AudioBytes)
    (hkey : validate_api_key key = true)
    (hlang : validate_language data.language = true)
    (hne : data.audio_base64 ≠ "")
    (hdec : b64 data.audio_base64 = some bytes)
    (hsize : bytes.len < 1024 ∨ bytes.len > 25 * 1024 * 1024) :
    ∃ e : HTTPError,
      detect sqrtFn um us b64 key store data = (store, [], .error e) ∧
      (e = ⟨400, "Audio file too small"⟩ ∨
       e = ⟨413, "Audio file too large (max 25MB)"⟩) := by
  rcases hsize with h | h
  · refine ⟨⟨400, "Audio file too small"⟩, ?_, Or.inl rfl⟩
    have h1 : ¬ bytes.len > 25 * 1024 * 1024 := by omega
    simp [detect, hkey, hlang, hne, hdec, validate_size, h1, h]
  · refine ⟨⟨413, "Audio file too large (max 25MB)"⟩, ?_, Or.inr rfl⟩
    simp [detect, hkey, hlang, hne, hdec, validate_size, h]

/-- Witness for C2: the 500-byte request of the specification is rejected
with "Audio file too small" and an empty trace. -/
theorem detect_size_rejects_witness :
    ∃ e : HTTPError,
      detect id (fun _ => demoForest) (fun _ => demoScaler) demoB64
        (some API_KEY) freshStore ⟨"short", "mp3", "english"⟩ =
        (freshStore, [], .error e) ∧
      (e = ⟨400, "Audio file too small"⟩ ∨
       e = ⟨413, "Audio file too large (max 25MB)"⟩) :=
  detect_size_rejects_before_extraction id (fun _ => demoForest)
    (fun _ => demoScaler) demoB64 (some API_KEY) freshStore
    ⟨"short", "mp3", "english"⟩ ⟨500, .error "decode error"⟩
    (by decide) (by decide) (by decide) rfl (Or.inl (by decide))

/-- Claim C5 (amended): `detect` performs no format allow-list check at
all: the declared format does not influence the outcome of the request in
any way (in the code it is used only to name the staged temp file). -/
theorem detect_format_noninterference (sqrtFn : ℚ → ℚ)
    (um : ℕ → RandomForest) (us : ℕ → StandardScaler)
    (b64 : String → Option AudioBytes) (key : Option String)
    (store : Persisted) (b64s fmt1 fmt2 lang : String) :
    detect sqrtFn um us b64 key store ⟨b64s, fmt1, lang⟩ =
      detect sqrtFn um us b64 key store ⟨b64s, fmt2, lang⟩ := rfl

/-- Counterexample to C5 as stated: a request declaring format `"xyz"`,
which is not in the allow-list the `/stats` endpoint reports, is not
rejected before classification: it runs to completion and returns a
success result. -/
theorem detect_format_not_validated_counterexample :
    "xyz" ∉ SUPPORTED_FORMATS ∧
    (detect id (fun _ => demoForest) (fun _ => demoScaler) demoB64
      (some API_KEY) freshStore ⟨"audio", "xyz", "english"⟩).2.1 =
      [Event.bootstrapTrain, Event.loadModelFiles, Event.extractFeaturesStep,
       Event.classifyStep] ∧
    (match (detect id (fun _ => demoForest) (fun _ => demoScaler) demoB64
      (some API_KEY) freshStore ⟨"audio", "xyz", "english"⟩).2.2 with
     | .ok _ => true
     | .error _ => false) = true := by
  decide

/-- Claim C9: noninterference of the language tag. Two detect requests
identical except for their (supported) language value produce the same
persisted state, the same event trace, and the same outcome up to the
echoed language field; on success each response echoes its own request
language in lowercase. -/
theorem detect_language_noninterference (sqrtFn : ℚ → ℚ)
    (um : ℕ → RandomForest) (us : ℕ → StandardScaler)
    (b64 : String → Option AudioBytes) (key : Option String)
    (store : Persisted) (b64s fmt l1 l2 : String)
    (h1 : validate_language l1 = true) (h2 : validate_language l2 = true) :
    (detect sqrtFn um us b64 key store ⟨b64s, fmt, l1⟩).1 =
      (detect sqrtFn um us b64 key store ⟨b64s, fmt, l2⟩).1 ∧
    (detect sqrtFn um us b64 key store ⟨b64s, fmt, l1⟩).2.1 =
      (detect sqrtFn um us b64 key store ⟨b64s, fmt, l2⟩).2.1 ∧
    Except.map (fun r => { r with language := "" })
        (detect sqrtFn um us b64 key store ⟨b64s, fmt, l1⟩).2.2 =
      Except.map (fun r => { r with language := "" })
        (detect sqrtFn um us b64 key store ⟨b64s, fmt, l2⟩).2.2 ∧
    (∀ r, (detect sqrtFn um us b64 key store ⟨b64s, fmt, l1⟩).2.2 = .ok r →
      r.language = strLower l1) ∧
    (∀ r, (detect sqrtFn um us b64 key store ⟨b64s, fmt, l2⟩).2.2 = .ok r →
      r.language = strLower l2) := by
  by_cases hk : validate_api_key key = false
  · simp [detect, hk]
  · have hk' : validate_api_key key = true := by
      revert hk; cases validate_api_key key <;> simp
    by_cases hb : b64s = ""
    · simp [detect, hk', h1, h2, hb]
    · cases hd : b64 b64s with
      | none => simp [detect, hk', h1, h2, hb, hd]
      | some bytes =>
          cases hv : validate_size bytes.len with
          | error e => simp [detect, hk', h1, h2, hb, hd, hv]
          | ok u =>
              cases u
              rcases hp : predict_voice sqrtFn um us store bytes.audio
                with ⟨s1, ev, r⟩
              cases r with
              | error msg => simp [detect, hk', h1, h2, hb, hd, hv, hp]
              | ok out =>
                  refine ⟨by simp [detect, hk', h1, h2, hb, hd, hv, hp],
                    by simp [detect, hk', h1, h2, hb, hd, hv, hp],
                    by simp [detect, hk', h1, h2, hb, hd, hv, hp, Except.map],
                    ?_, ?_⟩ <;>
                  · intro r hr
                    simp [detect, hk', h1, h2, hb, hd, hv, hp] at hr
                    rw [← hr]

/-- Witness for C9: an English and a Tamil request over the same decodable
audio agree on state, trace and result up to the echoed language. -/
theorem detect_language_noninterference_witness :
    (detect id (fun _ => demoForest) (fun _ => demoScaler) demoB64
      (some API_KEY) freshStore ⟨"audio", "mp3", "english"⟩).1 =
      (detect id (fun _ => demoForest) (fun _ => demoScaler) demoB64
        (some API_KEY) freshStore ⟨"audio", "mp3", "tamil"⟩).1 ∧
    (detect id (fun _ => demoForest) (fun _ => demoScaler) demoB64
      (some API_KEY) freshStore ⟨"audio", "mp3", "english"⟩).2.1 =
      (detect id (fun _ => demoForest) (fun _ => demoScaler) demoB64
        (some API_KEY) freshStore ⟨"audio", "mp3", "tamil"⟩).2.1 ∧
    Except.map (fun r => { r with language := "" })
        (detect id (fun _ => demoForest) (fun _ => demoScaler) demoB64
          (some API_KEY) freshStore ⟨"audio", "mp3", "english"⟩).2.2 =
      Except.map (fun r => { r with language := "" })
        (detect id (fun _ => demoForest) (fun _ => demoScaler) demoB64
          (some API_KEY) freshStore ⟨"audio", "mp3", "tamil"⟩).2.2 ∧
    (∀ r, (detect id (fun _ => demoForest) (fun _ => demoScaler) demoB64
      (some API_KEY) freshStore ⟨"audio", "mp3", "english"⟩).2.2 = .ok r →
      r.language = strLower "english") ∧
    (∀ r, (detect id (fun _ => demoForest) (fun _ => demoScaler) demoB64
      (some API_KEY) freshStore ⟨"audio", "mp3", "tamil"⟩).2.2 = .ok r →
      r.language = strLower "tamil") :=
  detect_language_noninterference id (fun _ => demoForest)
    (fun _ => demoScaler) demoB64 (some API_KEY) freshStore "audio" "mp3"
    "english" "tamil" (by decide) (by decide)
